import Mathlib

/-!
Verification of the nsjail subprocess lifecycle engine (src/subproc.cc) and
of the cgroup v2 resource-control layer (src/cgroup2.cc), as a shallow
embedding in Lean together with theorems settling the specification claims.

Embedding conventions:
* C `size_t` values are modelled as `Nat`; `ssize_t` and `long long` as
  `Int`.  The one unsigned subtraction in the source
  (`cgroup_mem_memsw_max - cgroup_mem_max`, subsequently stored into an
  `ssize_t`) is modelled explicitly: wrap-around modulo `2 ^ 64` followed by
  two's-complement reinterpretation (`toSigned64`).
* File contents are modelled as the data the C code obtains from the
  kernel: for the line-oriented readers, the list of successive `fgets`
  results; a file whose `fopen` fails with `ENOENT` is a separate
  constructor.
* The `double` arithmetic of `reapProc` (total consumed CPU seconds,
  `tv_sec + tv_usec / 1e6`) is idealised as exact rational arithmetic.
* Side effects of the reap path (accounting reads, `rmdir` of the cgroup
  directory, closing the per-child `/proc/<pid>/syscall` FD, erasing the
  registry record) are reified as an event trace, so that temporal claims
  become statements about list order.
-/

namespace Nsjail

/-- Value of `LLONG_MAX` on the 64-bit targets nsjail runs on. -/
def LLONG_MAX : Int := 2 ^ 63 - 1

/-- Value of `LLONG_MIN` on the 64-bit targets nsjail runs on. -/
def LLONG_MIN : Int := -(2 ^ 63)

/-- Value of `RLIM64_INFINITY` (`~0ULL`). -/
def RLIM64_INFINITY : Nat := 2 ^ 64 - 1

/-- Signal number of `SIGKILL` on Linux. -/
def SIGKILL : Nat := 9

/-- Signal number of `SIGXCPU` on Linux. -/
def SIGXCPU : Nat := 24

/-- Value of the `CLONE_VM` clone flag (`0x00000100`). -/
def CLONE_VM : Nat := 256

/-- Value of the `CLONE_NEWTIME` clone flag (`0x00000080`). -/
def CLONE_NEWTIME : Nat := 128

/-- Value of `ENOSYS` on Linux. -/
def ENOSYS : Nat := 38

/-- The fields of `nsjconf_t` that the verified code paths consult. -/
structure Cfg where
  use_cgroupv2 : Bool
  cgroup_mem_max : Nat
  cgroup_mem_memsw_max : Nat
  cgroup_mem_swap_max : Int
  cgroup_pids_max : Nat
  cgroup_cpu_ms_per_sec : Nat
deriving DecidableEq

/-- Reinterpret a 64-bit unsigned value as a two's-complement signed one,
as happens when the C code stores a `size_t` difference into an `ssize_t`. -/
def toSigned64 (n : Nat) : Int :=
  if n % 2 ^ 64 < 2 ^ 63 then ((n % 2 ^ 64 : Nat) : Int)
  else ((n % 2 ^ 64 : Nat) : Int) - 2 ^ 64

/-- Unsigned 64-bit subtraction `a - b` with wrap-around. -/
def usub64 (a b : Nat) : Nat :=
  (a % 2 ^ 64 + 2 ^ 64 - b % 2 ^ 64) % 2 ^ 64

/-- The `swap_max` value computed at the top of `initNsFromParentMem` (and
recomputed identically in `needMemoryController`): it starts as
`cgroup_mem_swap_max` and is overwritten with
`cgroup_mem_memsw_max - cgroup_mem_max` whenever a combined memory+swap cap
is set. -/
def derivedSwapMax (cfg : Cfg) : Int :=
  if cfg.cgroup_mem_memsw_max > 0 then
    toSigned64 (usub64 cfg.cgroup_mem_memsw_max cfg.cgroup_mem_max)
  else cfg.cgroup_mem_swap_max

/-- The sequence of `(file, value)` pairs written below `NSJAIL.<pid>` by
`initNsFromParentMem` on its success path.  The early return (memory
limiting entirely unconfigured) produces no writes and no directory. -/
def initNsFromParentMemWrites (cfg : Cfg) (pid : Nat) : List (String × String) :=
  let sm := derivedSwapMax cfg
  if cfg.cgroup_mem_max = 0 ∧ sm < 0 then []
  else
    [("cgroup.procs", toString pid)]
      ++ (if cfg.cgroup_mem_max > 0 then
            [("memory.max", toString cfg.cgroup_mem_max)] else [])
      ++ (if sm ≥ 0 then [("memory.swap.max", toString sm)] else [])

/-- Whether `initNsFromParentMem` reaches `createCgroup`, i.e. creates the
`<mount>/NSJAIL.<pid>` directory. -/
def memCreatesDir (cfg : Cfg) : Bool :=
  if cfg.cgroup_mem_max = 0 ∧ derivedSwapMax cfg < 0 then false else true

/-- The `(file, value)` writes performed by the whole `initNsFromParent`
(memory, then pids, then cpu) on its success path. -/
def initNsFromParentWrites (cfg : Cfg) (pid : Nat) : List (String × String) :=
  initNsFromParentMemWrites cfg pid
    ++ (if cfg.cgroup_pids_max = 0 then []
        else [("cgroup.procs", toString pid),
              ("pids.max", toString cfg.cgroup_pids_max)])
    ++ (if cfg.cgroup_cpu_ms_per_sec = 0 then []
        else [("cgroup.procs", toString pid),
              ("cpu.max", toString (cfg.cgroup_cpu_ms_per_sec * 1000) ++ " 1000000")])

/-- Whether a spawn with this configuration creates the per-child
`<mount>/NSJAIL.<pid>` directory: any of the three sub-initialisations
calls `createCgroup`. -/
def cgroupDirCreated (cfg : Cfg) : Bool :=
  memCreatesDir cfg || cfg.cgroup_pids_max != 0 || cfg.cgroup_cpu_ms_per_sec != 0

/-- Transcription of `needMemoryController`. -/
def needMemoryController (cfg : Cfg) : Bool :=
  if cfg.cgroup_mem_max = 0 ∧ derivedSwapMax cfg < 0 then false else true

/-- Transcription of `needPidsController`. -/
def needPidsController (cfg : Cfg) : Bool :=
  cfg.cgroup_pids_max != 0

/-- Transcription of `needCpuController`. -/
def needCpuController (cfg : Cfg) : Bool :=
  cfg.cgroup_cpu_ms_per_sec != 0

/-- Substring search, the semantics of `strstr(hay, pat) != NULL`. -/
def containsSub (pat : List Char) : List Char → Bool
  | [] => pat.isEmpty
  | c :: t => pat.isPrefixOf (c :: t) || containsSub pat t

/-- Whether `pat` occurs as a substring of `hay` (`strstr` succeeding). -/
def strstrB (hay pat : String) : Bool :=
  containsSub pat.toList hay.toList

/-- The `subtree_ok` check performed by `setup` on the buffer read from
`<mount>/cgroup.subtree_control` (at most `SUBTREE_CONTROL_BUF_LEN - 1`
bytes; `buf` stands for exactly the bytes read). -/
def subtreeOk (cfg : Cfg) (buf : String) : Bool :=
  (!needMemoryController cfg || strstrB buf "memory") &&
  (!needPidsController cfg || strstrB buf "pids") &&
  (!needCpuController cfg || strstrB buf "cpu")

/-- The controllers `setup` considers needed, in the order it handles them. -/
def neededControllers (cfg : Cfg) : List String :=
  (if needMemoryController cfg then ["memory"] else [])
    ++ (if needPidsController cfg then ["pids"] else [])
    ++ (if needCpuController cfg then ["cpu"] else [])

/-- The `+<name>` tokens `setup` writes to `cgroup.subtree_control` on its
success path, given the bytes `buf` it read from that file: nothing when
`subtree_ok`, otherwise one write per needed controller. -/
def setupSubtreeWrites (cfg : Cfg) (buf : String) : List String :=
  if subtreeOk cfg buf then []
  else
    (if needMemoryController cfg then ["+memory"] else [])
      ++ (if needPidsController cfg then ["+pids"] else [])
      ++ (if needCpuController cfg then ["+cpu"] else [])

/-- Whether a character is whitespace for `isspace` in the C locale. -/
def isSpaceC (c : Char) : Bool :=
  c == ' ' || c == '\t' || c == '\n' || c == '\x0b' || c == '\x0c' || c == '\r'

/-- Drop the leading whitespace, as `strtoll` does before parsing. -/
def dropWsC : List Char → List Char
  | [] => []
  | c :: t => if isSpaceC c then dropWsC t else c :: t

/-- Consume a maximal run of decimal digits, accumulating their value;
the `Bool` records whether at least one digit was consumed. -/
def grabDigits : List Char → Nat → Bool → Nat × Bool × List Char
  | [], acc, found => (acc, found, [])
  | c :: t, acc, found =>
    if c.isDigit then grabDigits t (acc * 10 + (c.toNat - 48)) true
    else (acc, found, c :: t)

/-- Result of the `strtoll(buf, &endptr, 10)` model: the value (clamped into
`long long` range), whether any digits were found (`endptr != buf`),
whether `errno` was set to `ERANGE`, and the suffix starting at `endptr`. -/
structure StrtollOut where
  val : Int
  digitsFound : Bool
  erange : Bool
  rest : List Char
deriving DecidableEq

/-- Model of glibc `strtoll` with base 10 on a NUL-terminated buffer holding
the characters `cs`: skip whitespace, optional sign, maximal digit run;
on overflow clamp to `LLONG_MAX`/`LLONG_MIN` and flag `ERANGE`; when no
digits are found, `endptr` is reset to the start of the buffer. -/
def strtollDec (cs : List Char) : StrtollOut :=
  let t := dropWsC cs
  let st : Bool × List Char :=
    match t with
    | '-' :: r => (true, r)
    | '+' :: r => (false, r)
    | _ => (false, t)
  let g := grabDigits st.2 0 false
  if g.2.1 = false then ⟨0, false, false, cs⟩
  else
    let v : Int := if st.1 then -(g.1 : Int) else (g.1 : Int)
    if v > LLONG_MAX then ⟨LLONG_MAX, true, true, g.2.2⟩
    else if v < LLONG_MIN then ⟨LLONG_MIN, true, true, g.2.2⟩
    else ⟨v, true, false, g.2.2⟩

/-- Whether every remaining character is whitespace: the trailing-garbage
scan `while (*p && isspace(*p)) p++; *p == 0` of `removeCgroup`. -/
def allWsC (cs : List Char) : Bool :=
  cs.all isSpaceC

/-- The common value-validation sequence `removeCgroup` applies after each
`strtoll` call, returning the accepted value (or a sentinel) and whether a
warning was logged.  `erVal` is the sentinel stored on `ERANGE`: `-1` for
`memory.peak` and `system_usec`, but `-2` for `user_usec`.  The second
branch transcribes the dead `errno != 0 && val == 0` check (in the model,
`errno` is nonzero only for `ERANGE`, which the first branch has already
consumed). -/
def parseLLField (erVal : Int) (cs : List Char) : Int × Bool :=
  let r := strtollDec cs
  if r.erange then (erVal, true)
  else if r.erange ∧ r.val = 0 then (-1, true)
  else if r.digitsFound = false then (-1, true)
  else if allWsC r.rest = false then (-1, true)
  else if r.val < 0 then (-1, true)
  else (r.val, false)

/-- Conformance of a buffer for the parse above: digits found, in range,
only whitespace after the number, non-negative value.  Exactly the inputs
on which `parseLLField` accepts the parsed value without a warning. -/
def conformantLL (cs : List Char) : Bool :=
  (strtollDec cs).digitsFound && !(strtollDec cs).erange &&
    allWsC (strtollDec cs).rest && decide (0 ≤ (strtollDec cs).val)

/-- A cgroup accounting file as the teardown code observes it: either
`fopen` fails with `ENOENT`, or the file opens and the successive `fgets`
calls return the listed buffers (an empty list models an empty file, where
the first `fgets` already reports end-of-file). -/
inductive CgFile
  | missing
  | lines (ls : List String)
deriving DecidableEq

/-- The `memory.peak` part of `removeCgroup`: value obtained and whether a
warning (`LOG_W`/`PLOG_W`) was emitted.  A missing file only logs at debug
level; an empty file warns; otherwise the first `fgets` buffer is parsed
with sentinel `-1`. -/
def memPeakParse : CgFile → Int × Bool
  | .missing => (-1, false)
  | .lines [] => (-1, true)
  | .lines (l :: _) => parseLLField (-1) l.toList

/-- The `cpu.stat` line loop of `removeCgroup`: fold over the `fgets`
results, parsing `user_usec` (sentinel `-2` on `ERANGE`) and `system_usec`
(sentinel `-1`) the first time each prefix is seen while the slot still
holds `-1`, and stopping early once both slots differ from `-1`. -/
def cpuStatLoop : List String → Int → Int → Bool → Int × Int × Bool
  | [], u, s, w => (u, s, w)
  | l :: rest, u, s, w =>
    let step : Int × Int × Bool :=
      if u = -1 ∧ l.toList.take 10 = "user_usec ".toList then
        let p := parseLLField (-2) (l.toList.drop 10)
        (p.1, s, w || p.2)
      else if s = -1 ∧ l.toList.take 12 = "system_usec ".toList then
        let p := parseLLField (-1) (l.toList.drop 12)
        (u, p.1, w || p.2)
      else (u, s, w)
    if step.1 ≠ -1 ∧ step.2.1 ≠ -1 then step
    else cpuStatLoop rest step.1 step.2.1 step.2.2

/-- The `cpu.stat` part of `removeCgroup`: `(user_usec, system_usec,
total_cpu_usec, warned)`.  The total is the sum only when both components
parsed non-negatively; otherwise it stays `-1`, with an extra warning when
a component still holds `-1`. -/
def cpuStatParse : CgFile → Int × Int × Int × Bool
  | .missing => (-1, -1, -1, false)
  | .lines ls =>
    let r := cpuStatLoop ls (-1) (-1) false
    let u := r.1
    let s := r.2.1
    let w := r.2.2
    if 0 ≤ u ∧ 0 ≤ s then (u, s, u + s, w)
    else (u, s, -1, w || (decide (u = -1) || decide (s = -1)))

/-- The accounting record `removeCgroup` assembles before logging the stats
and calling `rmdir`. -/
structure CgroupAccounting where
  memory_peak_bytes : Int
  user_usec : Int
  system_usec : Int
  total_cpu_usec : Int
  warned : Bool
deriving DecidableEq

/-- Accounting collection of `removeCgroup`, from the observed contents of
`memory.peak` and `cpu.stat`. -/
def removeCgroupAcct (memFile cpuFile : CgFile) : CgroupAccounting :=
  let m := memPeakParse memFile
  let c := cpuStatParse cpuFile
  ⟨m.1, c.1, c.2.1, c.2.2.1, m.2 || c.2.2.2⟩

/-- A `pids_t` tracking record, as stored in `nsjconf->pids`. -/
structure PRecord where
  start : Nat
  remote_txt : String
  pid_syscall_fd : Int
  cpu_rl_cur : Nat
  cpu_rl_max : Nat
deriving DecidableEq

/-- The process registry `nsjconf->pids`, as an association list with
distinct keys (`std::map` keyed by pid). -/
abbrev Registry := List (Nat × PRecord)

/-- Transcription of `addProc`: build the record (CPU rlimit snapshot taken
from `rl_cpu` unless rlimits are disabled, in which case it stays
`RLIM64_INFINITY`) and insert it under `pid`. -/
def addProcM (disable_rl : Bool) (rl_cpu : Nat) (reg : Registry) (pid : Nat)
    (start : Nat) (remote : String) (fd : Int) : Registry :=
  let rl := if disable_rl then RLIM64_INFINITY else rl_cpu
  (pid, ⟨start, remote, fd, rl, rl⟩) :: reg

/-- Observable side effects of the reap path, in program order. -/
inductive REvent
  | readMemPeak
  | readCpuStat
  | rmdirCgroup
  | v1Finish
  | closeFd (fd : Int)
  | eraseRecord (pid : Nat)
deriving DecidableEq

/-- Transcription of `removeProc`: when the pid is tracked, close its
`/proc/<pid>/syscall` FD and erase the record (a warning and no effect
otherwise). -/
def removeProcM (reg : Registry) (pid : Nat) : Registry × List REvent :=
  match reg.lookup pid with
  | none => (reg, [])
  | some p => (reg.filter (fun q => q.1 != pid),
               [.closeFd p.pid_syscall_fd, .eraseRecord pid])

/-- Whether `cgroup2::finishFromParent` calls `removeCgroup` for this
configuration. -/
def finishFromParentRuns (cfg : Cfg) : Bool :=
  cfg.cgroup_mem_max != 0 || cfg.cgroup_pids_max != 0 ||
    cfg.cgroup_cpu_ms_per_sec != 0

/-- Events of the cgroup-cleanup step of `reapProc`: under cgroup v2, the
guarded `removeCgroup` (accounting reads, then `rmdir`); otherwise the
legacy v1 path, opaque here. -/
def finishEvents (cfg : Cfg) : List REvent :=
  if cfg.use_cgroupv2 then
    if finishFromParentRuns cfg then [.readMemPeak, .readCpuStat, .rmdirCgroup]
    else []
  else [.v1Finish]

/-- Outcome of the per-pid `wait4(pid, &status, WNOHANG, &usage)` call:
the pid was consumed with the given status, or no child was ready
(`wait4` returned `0`), or the call failed with the given `errno`. -/
inductive Wait4R
  | reaped (status : Nat)
  | noChild
  | failed (e : Nat)
deriving DecidableEq

/-- Glibc `WIFEXITED`: low seven status bits all clear. -/
def wifexited (s : Nat) : Bool :=
  s % 128 == 0

/-- Glibc `WEXITSTATUS`: bits 8..15 of the status. -/
def wexitstatus (s : Nat) : Nat :=
  (s / 256) % 256

/-- Glibc `WTERMSIG`: low seven status bits. -/
def wtermsig (s : Nat) : Nat :=
  s % 128

/-- Glibc `WIFSIGNALED`: the low seven bits are neither `0` (exited) nor
`0x7f` (stopped). -/
def wifsignaled (s : Nat) : Bool :=
  s % 128 != 0 && s % 128 != 127

/-- Total consumed CPU seconds computed by `reapProc` from the `rusage`
fields, `tv_sec + tv_usec / 1e6` summed over user and system time
(the source's `double` arithmetic idealised over `ℚ`). -/
def totSec (us uu ss su : Nat) : ℚ :=
  ((us : ℚ) + (uu : ℚ) / 1000000) + ((ss : ℚ) + (su : ℚ) / 1000000)

/-- How `reapProc` classifies the death of the child in its log line. -/
inductive KillClass
  | exitedCode (c : Nat)
  | cpuSoftLimit
  | cpuHardLimit
  | plainSigkill
  | otherSignal (sig : Nat)
deriving DecidableEq

/-- Result of one per-pid `reapProc` call: the registry afterwards, the
returned exit code, the emitted side-effect trace, and the death
classification (when a status was consumed). -/
structure ReapOut where
  reg : Registry
  ret : Int
  events : List REvent
  klass : Option KillClass
deriving DecidableEq

/-- Transcription of the per-pid `reapProc(nsjconf, pid, should_wait)`:
look up the stored CPU rlimit snapshot first; when `wait4` consumes the
pid, run the cgroup cleanup, then classify the status — exit code for
`WIFEXITED`, and for `WIFSIGNALED` the `SIGXCPU` / `SIGKILL`-with-CPU-check
/ other-signal ladder — removing the record and returning `WEXITSTATUS`
resp. `128 + WTERMSIG`.  When `wait4` does not consume the pid, nothing
changes and `0` is returned. -/
def reapProcM (cfg : Cfg) (reg : Registry) (pid : Nat) (w : Wait4R)
    (us uu ss su : Nat) : ReapOut :=
  let storedMax : Nat :=
    match reg.lookup pid with
    | some p => p.cpu_rl_max
    | none => RLIM64_INFINITY
  match w with
  | .reaped status =>
    let tot := totSec us uu ss su
    let ev0 := finishEvents cfg
    if wifexited status then
      let r := removeProcM reg pid
      ⟨r.1, (wexitstatus status : Int), ev0 ++ r.2,
        some (.exitedCode (wexitstatus status))⟩
    else if wifsignaled status then
      let sig := wtermsig status
      let k : KillClass :=
        if sig = SIGXCPU then .cpuSoftLimit
        else if sig = SIGKILL then
          if storedMax ≠ RLIM64_INFINITY ∧ (storedMax : ℚ) ≤ tot then
            .cpuHardLimit
          else .plainSigkill
        else .otherSignal sig
      let r := removeProcM reg pid
      ⟨r.1, ((128 + sig : Nat) : Int), ev0 ++ r.2, some k⟩
    else ⟨reg, 0, ev0, none⟩
  | .noChild => ⟨reg, 0, [], none⟩
  | .failed _ => ⟨reg, 0, [], none⟩

/-- Outcome of one step of `initParent`. -/
inductive PStep
  | ok
  | fail
deriving DecidableEq

/-- Success or failure of each collaborator call `initParent` makes, in
program order: `net::initNsFromParent`, the cgroup `initNsFromParent`
(v2 or legacy v1 — both guarded identically), `user::initNsFromParent`,
and the write of the `DONE` byte to the handshake socket. -/
structure ParentSteps where
  netInit : PStep
  cgroupInit : PStep
  userInit : PStep
  writeDone : PStep
deriving DecidableEq

/-- How `initParent` ends: all steps succeeded, or it returned `false` to
`runChild`, or it called `exit(code)` and the supervisor process died. -/
inductive ParentOutcome
  | success
  | returnFalse
  | supervisorDied (code : Nat)
deriving DecidableEq

/-- Transcription of `initParent`: a net failure returns `false`; a cgroup
failure calls `exit(0xff)`; a user-namespace failure or a failed `DONE`
write returns `false`. -/
def initParentM (s : ParentSteps) : ParentOutcome :=
  if s.netInit = .fail then .returnFalse
  else if s.cgroupInit = .fail then .supervisorDied 255
  else if s.userInit = .fail then .returnFalse
  else if s.writeDone = .fail then .returnFalse
  else .success

/-- What `runChild` does after a successful clone, seen from its caller:
either it returns a value, or the supervisor process itself died inside
`initParent`. -/
inductive SpawnResult
  | returned (v : Int)
  | supervisorDied (code : Nat)
deriving DecidableEq

/-- The tail of `runChild` after `cloneProc` returned the (positive) child
pid: `addProc`, then `initParent` — returning `-1` when it reports failure
— then the handshake read, returning `-1` when the child sent the `ERROR`
byte, and the child pid otherwise. -/
def runChildAfterClone (pid : Int) (s : ParentSteps) (childSentError : Bool) :
    SpawnResult :=
  match initParentM s with
  | .supervisorDied c => .supervisorDied c
  | .returnFalse => .returned (-1)
  | .success => if childSentError then .returned (-1) else .returned pid

/-- Kernel responses driving `cloneProc` past its flag checks: the results
of `clone3` with and without `CLONE_CLEAR_SIGHAND` (with the `errno` left
by the second), and of the legacy `clone` fallback. -/
structure CloneOracle where
  clone3_clear_ret : Int
  clone3_plain_ret : Int
  clone3_plain_errno : Nat
  clone_fallback_ret : Int
deriving DecidableEq

/-- Result of `cloneProc` as its caller observes it: the returned value,
the `errno` value the function itself assigned (`none` when `errno` is
whatever the last syscall left), and how many process-creating syscalls
(`clone3`/`clone`) were attempted. -/
structure CloneRes where
  ret : Int
  errnoOut : Option Nat
  attempts : Nat
deriving DecidableEq

/-- Transcription of `cloneProc`: reject `CLONE_VM` outright (`errno = 0`,
return `-1`, no syscall); try `clone3` with `CLONE_CLEAR_SIGHAND`, then
without; unless the kernel lacks `clone3`, return its result; reject
`CLONE_NEWTIME` when falling back; otherwise run the legacy `clone`
trampoline. -/
def cloneProcM (flags : Nat) (o : CloneOracle) : CloneRes :=
  if flags &&& CLONE_VM != 0 then ⟨-1, some 0, 0⟩
  else if o.clone3_clear_ret != -1 then ⟨o.clone3_clear_ret, none, 1⟩
  else if o.clone3_plain_ret != -1 || o.clone3_plain_errno != ENOSYS then
    ⟨o.clone3_plain_ret, none, 2⟩
  else if flags &&& CLONE_NEWTIME != 0 then ⟨-1, some 0, 2⟩
  else ⟨o.clone_fallback_ret, none, 3⟩

/-- Looking up a key in an association list from which every pair with that
key has been filtered out yields nothing. -/
theorem lookup_filter_ne_self (pid : Nat) :
    ∀ reg : Registry, (reg.filter (fun q => q.1 != pid)).lookup pid = none := by
  intro reg
  induction reg with
  | nil => rfl
  | cons a t ih =>
    obtain ⟨k, v⟩ := a
    by_cases h : k = pid
    · simpa [List.filter_cons, h] using ih
    · have hbeq : (pid == k) = false := by simpa using Ne.symm h
      simp [List.filter_cons, List.lookup, h, hbeq, ih]

/-- After `removeProc`, the pid is no longer tracked. -/
theorem lookup_removeProc (reg : Registry) (pid : Nat) :
    ((removeProcM reg pid).1).lookup pid = none := by
  unfold removeProcM
  cases h : reg.lookup pid with
  | none => simp [h]
  | some p => simp [h, lookup_filter_ne_self]

/-- A signal-terminated wait status is not an exit status. -/
theorem wifexited_false_of_signaled (s : Nat) (h : wifsignaled s = true) :
    wifexited s = false := by
  simp [wifsignaled] at h
  simp [wifexited]
  exact h.1

/-- C1, counterexample: with the net step succeeding and the cgroup
initialization failing, `initParent` calls `exit(0xff)`, so `runChild`
never returns to its caller and the supervisor process terminates —
refuting the claim that any failing pre-exec parent setup step makes
`runChild` return a failure value without taking down the supervisor. -/
theorem c1_counterexample :
    runChildAfterClone 1000 ⟨.ok, .fail, .ok, .ok⟩ false = .supervisorDied 255 := by
  decide

/-- C1, amended: when the net step fails, or the net and cgroup steps
succeed and the user-namespace step fails, `runChild` returns `-1` and the
supervisor survives; but when the cgroup initialization fails (net having
succeeded), the supervisor process itself exits with code `0xff` instead of
returning. -/
theorem c1_amended_theorem (s : ParentSteps) (pid : Int) (ce : Bool) :
    ((s.netInit = .fail ∨ s.netInit = .ok ∧ s.cgroupInit = .ok ∧ s.userInit = .fail) →
        runChildAfterClone pid s ce = .returned (-1)) ∧
      (s.netInit = .ok ∧ s.cgroupInit = .fail →
        runChildAfterClone pid s ce = .supervisorDied 255) := by
  obtain ⟨n, c, u, w⟩ := s
  cases n <;> cases c <;> cases u <;> cases w <;>
    simp [runChildAfterClone, initParentM]

/-- C1, witness for the amended theorem at concrete step outcomes. -/
theorem c1_amended_witness :
    runChildAfterClone 7 ⟨.fail, .ok, .ok, .ok⟩ false = .returned (-1) ∧
      runChildAfterClone 7 ⟨.ok, .fail, .ok, .ok⟩ true = .supervisorDied 255 :=
  ⟨(c1_amended_theorem _ 7 false).1 (Or.inl rfl),
   (c1_amended_theorem _ 7 true).2 ⟨rfl, rfl⟩⟩

/-- C2, counterexample: with `mem_max = 0`, the combined cap unset and
`swap_max = 0`, the per-child cgroup init does write `memory.swap.max`
(with value `0`), because the derived swap value `0` passes the
`swap_max >= 0` check — refuting the claim that neither file is written. -/
theorem c2_counterexample :
    ("memory.swap.max", "0") ∈ initNsFromParentWrites ⟨true, 0, 0, 0, 0, 0⟩ 1000 := by
  decide

/-- C2, amended: with `mem_max = 100` and `mem+swap = 150` the init writes
`memory.max = 100` and `memory.swap.max = 50`; with `mem_max = 0`, the
combined cap unset and `swap_max = 0` it writes `memory.swap.max = 0` and
not `memory.max`; both files stay unwritten only when additionally
`swap_max` is negative (unset). -/
theorem c2_amended_theorem :
    initNsFromParentWrites ⟨true, 100, 150, -1, 0, 0⟩ 1000 =
        [("cgroup.procs", "1000"), ("memory.max", "100"), ("memory.swap.max", "50")] ∧
      initNsFromParentWrites ⟨true, 0, 0, 0, 0, 0⟩ 1000 =
        [("cgroup.procs", "1000"), ("memory.swap.max", "0")] ∧
      initNsFromParentWrites ⟨true, 0, 0, -1, 0, 0⟩ 1000 = [] := by
  decide

/-- C3: evaluation at the failing configuration `mem_max = 0`,
`mem+swap = 0`, `swap_max = 0`, `pids_max = 0`, `cpu_ms = 0` under cgroup
v2: the spawn creates `<mount>/NSJAIL.<pid>` (the memory init does not take
its early return, `swap_max = 0` being non-negative), yet the reap path
removes the tracking record without ever invoking `removeCgroup` — no
`rmdir` event occurs — because `finishFromParent` only checks
`mem_max != 0 || pids_max != 0 || cpu_ms != 0`. -/
theorem c3_bug_eval :
    cgroupDirCreated ⟨true, 0, 0, 0, 0, 0⟩ = true ∧
      REvent.rmdirCgroup ∉
        (reapProcM ⟨true, 0, 0, 0, 0, 0⟩ [(5, ⟨0, "", 7, 2, 2⟩)] 5
          (.reaped 9) 0 0 0 0).events ∧
      (reapProcM ⟨true, 0, 0, 0, 0, 0⟩ [(5, ⟨0, "", 7, 2, 2⟩)] 5
          (.reaped 9) 0 0 0 0).reg = [] := by
  decide

/-- C9: any flag set containing `CLONE_VM` makes `cloneProc` return `-1`
immediately — zero process-creating syscalls are attempted — with the
error reported through the return-value/`errno` convention (`errno` is
explicitly assigned, here the value `0`). -/
theorem c9_theorem (flags : Nat) (o : CloneOracle) (h : flags &&& CLONE_VM ≠ 0) :
    cloneProcM flags o = ⟨-1, some 0, 0⟩ := by
  have hb : (flags &&& CLONE_VM != 0) = true := by simpa using h
  simp [cloneProcM, hb]

/-- C9, witness: the bare `CLONE_VM` flag value. -/
theorem c9_witness :
    256 &&& CLONE_VM = 256 ∧ cloneProcM 256 ⟨-1, -1, 38, -1⟩ = ⟨-1, some 0, 0⟩ :=
  ⟨by decide, c9_theorem 256 _ (by decide)⟩

/-- C10: when the per-pid `wait4` does not consume the pid (no exited child
under `WNOHANG`, or the wait fails), `reapProc` returns `0` and changes
nothing: the registry is untouched (the record and its open accounting FD
survive) and no side effect — no accounting read, no `rmdir`, no close, no
erase — happens. -/
theorem c10_theorem (cfg : Cfg) (reg : Registry) (pid : Nat) (w : Wait4R)
    (us uu ss su : Nat) (h : w = .noChild ∨ ∃ e, w = .failed e) :
    reapProcM cfg reg pid w us uu ss su = ⟨reg, 0, [], none⟩ := by
  rcases h with h | ⟨e, h⟩ <;> subst h <;> rfl

/-- C10, witness at a concrete registry and a not-ready `wait4`. -/
theorem c10_witness :
    reapProcM ⟨true, 0, 0, 0, 0, 0⟩ [(3, ⟨0, "", 4, 2, 2⟩)] 3 .noChild 0 0 0 0 =
      ⟨[(3, ⟨0, "", 4, 2, 2⟩)], 0, [], none⟩ :=
  c10_theorem _ _ _ _ _ _ _ _ (Or.inl rfl)

/-- C5: for a tracked child consumed with a signaled status, the reaper
classifies `SIGXCPU` as a CPU-soft-limit death; it classifies `SIGKILL` as
a CPU-hard-limit death exactly when the CPU hard rlimit stored in the
record at spawn is finite and the collected user+system CPU seconds reach
it, and as a plain `SIGKILL` otherwise. -/
theorem c5_theorem (cfg : Cfg) (reg : Registry) (pid : Nat) (r : PRecord)
    (status us uu ss su : Nat)
    (hreg : reg.lookup pid = some r) (hsig : wifsignaled status = true) :
    (wtermsig status = SIGXCPU →
        (reapProcM cfg reg pid (.reaped status) us uu ss su).klass =
          some .cpuSoftLimit) ∧
      (wtermsig status = SIGKILL →
        ((reapProcM cfg reg pid (.reaped status) us uu ss su).klass =
            some .cpuHardLimit ↔
          r.cpu_rl_max ≠ RLIM64_INFINITY ∧
            (r.cpu_rl_max : ℚ) ≤ totSec us uu ss su) ∧
        ((reapProcM cfg reg pid (.reaped status) us uu ss su).klass =
            some .cpuHardLimit ∨
          (reapProcM cfg reg pid (.reaped status) us uu ss su).klass =
            some .plainSigkill)) := by
  have hx := wifexited_false_of_signaled status hsig
  constructor
  · intro h
    simp [reapProcM, hx, hsig, hreg, h]
  · intro h
    have hns : wtermsig status ≠ SIGXCPU := by
      rw [h]; decide
    by_cases hc : r.cpu_rl_max ≠ RLIM64_INFINITY ∧
        (r.cpu_rl_max : ℚ) ≤ totSec us uu ss su
    · simp [reapProcM, hx, hsig, hreg, h, hns, hc, SIGKILL, SIGXCPU]
    · simp [reapProcM, hx, hsig, hreg, h, hns, hc, SIGKILL, SIGXCPU]

/-- C5, witness: a record with a 2-second stored hard limit; 3 consumed CPU
seconds with `SIGKILL` classify as a CPU-hard-limit death, and a `SIGXCPU`
death classifies as CPU-soft-limit. -/
theorem c5_witness :
    (reapProcM ⟨true, 0, 0, 0, 0, 0⟩ (addProcM false 2 [] 7 0 "" 3) 7
        (.reaped 9) 3 0 0 0).klass = some .cpuHardLimit ∧
      (reapProcM ⟨true, 0, 0, 0, 0, 0⟩ (addProcM false 2 [] 7 0 "" 3) 7
        (.reaped 24) 0 0 0 0).klass = some .cpuSoftLimit := by
  constructor
  · exact (((c5_theorem ⟨true, 0, 0, 0, 0, 0⟩ (addProcM false 2 [] 7 0 "" 3) 7
      ⟨0, "", 3, 2, 2⟩ 9 3 0 0 0 (by decide) (by decide)).2
      (by decide)).1).mpr ⟨by decide, by norm_num [totSec]⟩
  · exact (c5_theorem ⟨true, 0, 0, 0, 0, 0⟩ (addProcM false 2 [] 7 0 "" 3) 7
      ⟨0, "", 3, 2, 2⟩ 24 0 0 0 0 (by decide) (by decide)).1 (by decide)

/-- C6: whenever the per-pid `wait4` consumes the child, `reapProc` removes
its record and returns `WEXITSTATUS(status)` when the status satisfies
`WIFEXITED`, and `128 + WTERMSIG(status)` when it satisfies `WIFSIGNALED`. -/
theorem c6_theorem (cfg : Cfg) (reg : Registry) (pid : Nat)
    (status us uu ss su : Nat) :
    (wifexited status = true →
        (reapProcM cfg reg pid (.reaped status) us uu ss su).ret =
            (wexitstatus status : Int) ∧
          (reapProcM cfg reg pid (.reaped status) us uu ss su).reg.lookup pid =
            none) ∧
      (wifsignaled status = true →
        (reapProcM cfg reg pid (.reaped status) us uu ss su).ret =
            ((128 + wtermsig status : Nat) : Int) ∧
          (reapProcM cfg reg pid (.reaped status) us uu ss su).reg.lookup pid =
            none) := by
  constructor
  · intro h
    simp [reapProcM, h, lookup_removeProc]
  · intro h
    have hx := wifexited_false_of_signaled status h
    simp [reapProcM, h, hx, lookup_removeProc]

/-- C6, witness: status `1280` (`WIFEXITED`, exit code 5) yields return
value 5; status `15` (`WIFSIGNALED` with `SIGTERM`) yields `143`; both
leave the pid untracked. -/
theorem c6_witness :
    (reapProcM ⟨true, 0, 0, 0, 0, 0⟩ [(3, ⟨0, "", 4, 2, 2⟩)] 3
        (.reaped 1280) 0 0 0 0).ret = 5 ∧
      (reapProcM ⟨true, 0, 0, 0, 0, 0⟩ [(3, ⟨0, "", 4, 2, 2⟩)] 3
        (.reaped 1280) 0 0 0 0).reg.lookup 3 = none ∧
      (reapProcM ⟨true, 0, 0, 0, 0, 0⟩ [(3, ⟨0, "", 4, 2, 2⟩)] 3
        (.reaped 15) 0 0 0 0).ret = 143 ∧
      (reapProcM ⟨true, 0, 0, 0, 0, 0⟩ [(3, ⟨0, "", 4, 2, 2⟩)] 3
        (.reaped 15) 0 0 0 0).reg.lookup 3 = none := by
  refine ⟨?_, ?_, ?_, ?_⟩
  · exact (((c6_theorem ⟨true, 0, 0, 0, 0, 0⟩ [(3, ⟨0, "", 4, 2, 2⟩)] 3
      1280 0 0 0 0).1 (by decide)).1).trans (by decide)
  · exact ((c6_theorem ⟨true, 0, 0, 0, 0, 0⟩ [(3, ⟨0, "", 4, 2, 2⟩)] 3
      1280 0 0 0 0).1 (by decide)).2
  · exact (((c6_theorem ⟨true, 0, 0, 0, 0, 0⟩ [(3, ⟨0, "", 4, 2, 2⟩)] 3
      15 0 0 0 0).2 (by decide)).1).trans (by decide)
  · exact ((c6_theorem ⟨true, 0, 0, 0, 0, 0⟩ [(3, ⟨0, "", 4, 2, 2⟩)] 3
      15 0 0 0 0).2 (by decide)).2

/-- C7, counterexample: with the memory and pids controllers needed and the
root `cgroup.subtree_control` already listing `memory` (but not `pids`),
`setup` writes both `+memory` and `+pids` — writing `+memory` for a
controller that is not missing — refuting the claim that writes happen
only for needed controllers absent from the file's contents. -/
theorem c7_counterexample :
    setupSubtreeWrites ⟨true, 100, 0, -1, 5, 0⟩ "memory" = ["+memory", "+pids"] ∧
      strstrB "memory" "memory" = true := by
  decide

/-- C7, amended: when every needed controller already appears in the bytes
read from `cgroup.subtree_control`, `setup` performs no subtree-control
write — so a repeated `setup` after a successful one writes nothing; but
as soon as one needed controller is missing, it writes `+<name>` for every
needed controller, the already-present ones included. -/
theorem c7_amended_theorem (cfg : Cfg) (buf : String) :
    ((∀ c ∈ neededControllers cfg, strstrB buf c = true) →
        setupSubtreeWrites cfg buf = []) ∧
      (subtreeOk cfg buf = false →
        setupSubtreeWrites cfg buf =
          (neededControllers cfg).map (fun c => "+" ++ c)) := by
  by_cases hm : needMemoryController cfg = true <;>
    by_cases hp : needPidsController cfg = true <;>
      by_cases hc : needCpuController cfg = true <;>
        simp_all [setupSubtreeWrites, subtreeOk, neededControllers]

/-- C7, witness: with memory and pids needed, a read showing both present
yields no writes; a read showing only `memory` yields the two writes. -/
theorem c7_amended_witness :
    setupSubtreeWrites ⟨true, 100, 0, -1, 5, 0⟩ "cpuset cpu io memory pids" = [] ∧
      setupSubtreeWrites ⟨true, 100, 0, -1, 5, 0⟩ "memory" = ["+memory", "+pids"] := by
  constructor
  · exact (c7_amended_theorem _ _).1 (by decide)
  · exact ((c7_amended_theorem ⟨true, 100, 0, -1, 5, 0⟩ "memory").2
      (by decide)).trans (by decide)

/-- C8: for a reap of a tracked child under cgroup v2 with the per-child
cgroup in use, the event trace is exactly: read `memory.peak`, read
`cpu.stat`, `rmdir` the cgroup directory, close the record's FD, erase the
record — so the accounting reads strictly precede the `rmdir`, which
strictly precedes the record removal. -/
theorem c8_theorem (cfg : Cfg) (reg : Registry) (pid : Nat) (r : PRecord)
    (status us uu ss su : Nat)
    (hv2 : cfg.use_cgroupv2 = true) (hfin : finishFromParentRuns cfg = true)
    (hreg : reg.lookup pid = some r)
    (hst : wifexited status = true ∨ wifsignaled status = true) :
    (reapProcM cfg reg pid (.reaped status) us uu ss su).events =
      [.readMemPeak, .readCpuStat, .rmdirCgroup,
       .closeFd r.pid_syscall_fd, .eraseRecord pid] := by
  rcases hst with h | h
  · simp [reapProcM, h, finishEvents, hv2, hfin, removeProcM, hreg]
  · have hx := wifexited_false_of_signaled status h
    simp [reapProcM, h, hx, finishEvents, hv2, hfin, removeProcM, hreg]

/-- C8, witness: a memory-capped configuration, a tracked pid and a
`SIGKILL` status produce the five events in order. -/
theorem c8_witness :
    (reapProcM ⟨true, 5, 0, 0, 0, 0⟩ [(3, ⟨0, "", 4, 2, 2⟩)] 3
        (.reaped 9) 0 0 0 0).events =
      [.readMemPeak, .readCpuStat, .rmdirCgroup, .closeFd 4, .eraseRecord 3] :=
  c8_theorem _ _ 3 ⟨0, "", 4, 2, 2⟩ 9 0 0 0 0 rfl (by decide) rfl
    (Or.inr (by decide))

/-- C4, counterexample: an out-of-range `user_usec` line in `cpu.stat`
yields the sentinel `-2`, not `-1` (the source stores `-2` on `ERANGE` for
this one field), refuting the claim that every non-conformant accounting
value yields `-1`.  The warning is still logged. -/
theorem c4_counterexample :
    (removeCgroupAcct (.lines ["0\n"])
        (.lines ["user_usec 99999999999999999999\n"])).user_usec = -2 ∧
      (removeCgroupAcct (.lines ["0\n"])
        (.lines ["user_usec 99999999999999999999\n"])).warned = true := by
  decide

/-- C4, amended: every non-conformant buffer (empty, non-digit prefix,
trailing non-whitespace garbage, out of range, negative) parsed for
`memory.peak` or for the `system_usec` field yields `-1` with a warning;
the `user_usec` field likewise yields `-1` with a warning except on
out-of-range input, where it yields `-2` (still with a warning). -/
theorem c4_amended_theorem (s : List Char) (h : conformantLL s = false) :
    parseLLField (-1) s = (-1, true) ∧
      parseLLField (-2) s =
        (if (strtollDec s).erange then (-2 : Int) else -1, true) ∧
      memPeakParse (.lines [String.mk s]) = (-1, true) ∧
      cpuStatParse (.lines [String.mk ("user_usec ".toList ++ s)]) =
        (if (strtollDec s).erange then (-2 : Int) else -1, -1, -1, true) := by
  have key : ∀ er : Int, parseLLField er s =
      (if (strtollDec s).erange then er else -1, true) := by
    intro er
    by_cases he : (strtollDec s).erange = true
    · simp [parseLLField, he]
    · by_cases hd : (strtollDec s).digitsFound = true
      · by_cases hw : allWsC (strtollDec s).rest = true
        · by_cases hv : (strtollDec s).val < 0
          · simp [parseLLField, he, hd, hw, hv]
          · exfalso
            rw [conformantLL] at h
            simp [he, hd, hw, not_lt.mp hv] at h
        · simp [parseLLField, he, hd, hw]
      · simp [parseLLField, he, hd]
  have h1 : parseLLField (-1) s = (-1, true) := by
    simpa using key (-1)
  have h3 : memPeakParse (.lines [String.mk s]) = (-1, true) := by
    simpa [memPeakParse] using h1
  have hlen : ("user_usec ".toList).length = 10 := rfl
  have htake : ("user_usec ".toList ++ s).take 10 = "user_usec ".toList := by
    have := List.take_left "user_usec ".toList s
    rwa [hlen] at this
  have hdrop : ("user_usec ".toList ++ s).drop 10 = s := by
    have := List.drop_left "user_usec ".toList s
    rwa [hlen] at this
  have hl : (String.mk ("user_usec ".toList ++ s)).toList =
      "user_usec ".toList ++ s := rfl
  have h4 : cpuStatParse (.lines [String.mk ("user_usec ".toList ++ s)]) =
      (if (strtollDec s).erange then (-2 : Int) else -1, -1, -1, true) := by
    by_cases he : (strtollDec s).erange = true
    · have h2' : parseLLField (-2) s = (-2, true) := by
        rw [key (-2), if_pos he]
      simp [cpuStatParse, cpuStatLoop, hl, htake, hdrop, h2', he]
    · have h2' : parseLLField (-2) s = (-1, true) := by
        rw [key (-2), if_neg he]
      simp [cpuStatParse, cpuStatLoop, hl, htake, hdrop, h2', he]
  exact ⟨h1, key (-2), h3, h4⟩

/-- C4, witness for the amended theorem: a buffer with no digits. -/
theorem c4_amended_witness :
    conformantLL "xy".toList = false ∧
      parseLLField (-1) "xy".toList = (-1, true) ∧
      parseLLField (-2) "xy".toList = (-1, true) ∧
      memPeakParse (.lines [String.mk "xy".toList]) = (-1, true) ∧
      cpuStatParse (.lines [String.mk ("user_usec ".toList ++ "xy".toList)]) =
        (-1, -1, -1, true) := by
  have h := c4_amended_theorem "xy".toList (by decide)
  exact ⟨by decide, h.1, h.2.1.trans (by decide), h.2.2.1,
    h.2.2.2.trans (by decide)⟩

end Nsjail
